import Mathlib

/-!
Shallow embedding of `src/etf_mapper/br_loader.py` (class `ISharesLoader`).

Modelling conventions:
* Python exceptions are values of `PyError`; a fallible step returns `Except PyError _`.
* The HTTP boundary is a pair of functions supplied by an `Env`:
  `fetchPage` yields the list of anchor hrefs of the product page (an anchor
  without an `href` attribute is `none`, matching `link.get('href')` returning
  `None`), `fetchPayload` yields `my_list`, the decoded CSV body already split
  into lines and comma-separated fields (the `csv.reader` output).  A network
  failure is an `Except.error`.
* The local filesystem is an explicit `FS` value (created directories plus
  written files); `loguru` log output is a list of `LogMsg`.
* `pd.DataFrame(data, columns=cols)` is `mkDataFrame`: it raises `ValueError`
  exactly when the data is nonempty and its widest row does not have as many
  fields as `cols` (pandas pads narrower rows, so only the width of the widest
  row is compared; cell padding itself is not modelled since no claim depends
  on cell contents of ragged rows).
* The `@logger.catch()` decorator on `download_compositions_of_country` is the
  outer `match` in its embedding: any escaping error is logged as
  `LogMsg.caught` and the function returns normally.
-/

deriving instance DecidableEq for Except

namespace EtfLoader

/-- Python exception classes relevant to `br_loader.py`. -/
inductive PyError
  | indexError
  | valueError
  | fileNotFound
  | netError
deriving DecidableEq, Repr

/-- A `pandas.DataFrame` as used here: column names plus data rows. -/
structure Frame where
  columns : List String
  rows : List (List String)
deriving DecidableEq, Repr

/-- Width of the widest row of a list-of-lists payload. -/
def maxWidth (data : List (List String)) : Nat :=
  data.foldr (fun r acc => max r.length acc) 0

/-- `pd.DataFrame(data, columns=columns)` on a list of row lists: raises
`ValueError` iff the data is nonempty and the widest row's field count differs
from the number of column names. -/
def mkDataFrame (data : List (List String)) (columns : List String) :
    Except PyError Frame :=
  if data.isEmpty then .ok ⟨columns, data⟩
  else if maxWidth data = columns.length then .ok ⟨columns, data⟩
  else .error .valueError

/-- Lines 106-111 of `br_loader.py` applied to `my_list` (the decoded and
csv-split body): `pd.DataFrame(my_list[10:-1], columns=my_list[9])`.
`my_list[9]` on a list shorter than 10 raises `IndexError`. -/
def download_composition (my_list : List (List String)) : Except PyError Frame :=
  match my_list[9]? with
  | none => .error PyError.indexError
  | some header => mkDataFrame ((my_list.drop 10).dropLast) header

/-- `ISharesLoader.download_composition`: one GET for the payload, then the
positional reshaping of `download_composition`. -/
def download_composition_net
    (fetchPayload : String → Except PyError (List (List String)))
    (download_link : String) : Except PyError Frame :=
  match fetchPayload download_link with
  | .error e => .error e
  | .ok my_list => download_composition my_list

/-- Python's substring test `'csv' in s`. -/
def containsCsv (s : String) : Bool :=
  s.toList.tails.any (fun t => t.take 3 = ['c', 's', 'v'])

/-- The provider domain hard-coded on line 138. -/
def isharesDomain : String := "https://www.ishares.com"

/-- The warning recorded when `'csv' in current_link` raises `TypeError`
because `link.get('href')` returned `None` (line 136 logs the exception). -/
def typeErrorWarning : String := "argument of type NoneType is not iterable"

/-- The anchor scan of lines 129-136: first href containing "csv" wins
(`break`); an anchor whose href is absent makes the membership test raise,
which is caught, logged as a warning, and the scan continues. -/
def scanAnchors : List (Option String) → Option String × List String
  | [] => (none, [])
  | Option.none :: rest =>
      let r := scanAnchors rest
      (r.1, typeErrorWarning :: r.2)
  | Option.some h :: rest =>
      if containsCsv h then (some h, []) else scanAnchors rest

/-- `ISharesLoader.get_composition_download_link`: fetch the page (an error
propagates), scan the anchors, and prefix the found href with the fixed
domain; `if actual_link else None` is Python truthiness, so an empty-string
href also yields `None`.  Returns the link together with the scan warnings. -/
def get_composition_download_link
    (fetchPage : String → Except PyError (List (Option String)))
    (etf_url : String) : Except PyError (Option String × List String) :=
  match fetchPage etf_url with
  | .error e => .error e
  | .ok anchors =>
      let scanned := scanAnchors anchors
      let download_link :=
        match scanned.1 with
        | none => none
        | some l => if l = "" then none else some (isharesDomain ++ l)
      .ok (download_link, scanned.2)

/-- Python `s.replace(' ', '')`: delete every space character. -/
def pyReplaceSpace (s : String) : String :=
  String.mk (s.data.filter (fun c => c ≠ ' '))

/-- One row of `data/iso_country_mapping.csv`; only the two code columns are
touched by the loader, the country name stands for the untouched columns. -/
structure IsoRow where
  country : String
  alpha2 : String
  alpha3 : String
deriving DecidableEq, Repr

/-- `ISharesLoader.load_iso_mapping` applied to the parsed rows of the
reference file: strips spaces from the two code columns. -/
def load_iso_mapping (rows : List IsoRow) : List IsoRow :=
  rows.map (fun r =>
    { r with alpha2 := pyReplaceSpace r.alpha2, alpha3 := pyReplaceSpace r.alpha3 })

/-- One row of `data/product_screener_<country>.csv` as consumed by the
download loop: the `Ticker` and `URL` columns. -/
structure Product where
  ticker : String
  url : String
deriving DecidableEq, Repr

/-- The path string `data/product_screener_<country>.csv` built on line 51. -/
def screenerPath (country : String) : String :=
  "data/product_screener_" ++ country ++ ".csv"

/-- `ISharesLoader.load_ishares_products`: `pd.read_csv` of the per-country
screener file; a missing file raises `FileNotFoundError`, a present file is
returned as parsed, unmodified. `dataFiles` is the local `data/` directory. -/
def load_ishares_products (dataFiles : String → Option (List Product))
    (country : String) : Except PyError (List Product) :=
  match dataFiles (screenerPath country) with
  | none => .error PyError.fileNotFound
  | some rows => .ok rows

/-- The local filesystem under the working directory: directories created and
CSV files written (path, frame). -/
structure FS where
  dirs : List String
  files : List (String × Frame)
deriving DecidableEq, Repr

/-- The paths of the files present on a filesystem. -/
def fsPaths (fs : FS) : List String := fs.files.map Prod.fst

/-- An empty working directory. -/
def emptyFS : FS := ⟨[], []⟩

/-- `composition.to_csv(path)`: creates the file, or overwrites it in place if
the path already exists. -/
def writeFile (fs : FS) (path : String) (content : Frame) : FS :=
  if path ∈ fsPaths fs then
    { fs with files := fs.files.map (fun pf => if pf.1 = path then (path, content) else pf) }
  else
    { fs with files := fs.files ++ [(path, content)] }

/-- Lines 77-78: `if not export_path.exists(): export_path.mkdir(parents=True)`. -/
def mkdirIfNeeded (fs : FS) (dir : String) : FS :=
  if dir ∈ fs.dirs then fs else { fs with dirs := fs.dirs ++ [dir] }

/-- The date-stamped export directory of line 76. -/
def exportDir (dateStr : String) : String :=
  "downloads/compositions/" ++ dateStr

/-- The output file path of lines 76-81 for one ticker:
`downloads/compositions/<date>/<ticker>_holdings_<date>.csv`. -/
def outPath (dateStr ticker : String) : String :=
  exportDir dateStr ++ "/" ++ ticker ++ "_holdings_" ++ dateStr ++ ".csv"

/-- A loguru log record: `logger.info`, `logger.warning`, or an exception
absorbed and logged by the `@logger.catch()` decorator. -/
inductive LogMsg
  | info (msg : String)
  | warning (msg : String)
  | caught (e : PyError)
deriving DecidableEq, Repr

/-- The line-71 info message. -/
def infoMsg (p : Product) : String :=
  "Downloading compo for " ++ p.ticker ++ " from " ++ p.url ++ "!"

/-- The line-86 warning for a product without a composition link. -/
def noLinkMsg (p : Product) : String :=
  "No composition found for " ++ p.ticker ++ " at " ++ p.url ++ "!"

/-- The line-83 warning for a product whose downloaded file raised `ValueError`. -/
def invalidMsg (p : Product) : String :=
  "Invalid downloaded file for " ++ p.ticker ++ " from " ++ p.url ++ ", no data downloaded!"

/-- The external world: the two HTTP endpoints and the local `data/` files. -/
structure Env where
  fetchPage : String → Except PyError (List (Option String))
  fetchPayload : String → Except PyError (List (List String))
  dataFiles : String → Option (List Product)

/-- Mutable state threaded through the download loop: filesystem plus log. -/
structure RunState where
  fs : FS
  log : List LogMsg
deriving DecidableEq, Repr

/-- The body of the `for` loop of lines 68-87 for one product: log the info
line, resolve the link (a fetch error escapes), then either warn about a
missing link, or download; `except ValueError` catches exactly `ValueError`,
every other exception escapes with the state reached so far. -/
def processProduct (env : Env) (dateStr : String) (st : RunState) (p : Product) :
    Except (PyError × RunState) RunState :=
  match get_composition_download_link env.fetchPage p.url with
  | .error e => .error (e, ⟨st.fs, st.log ++ [LogMsg.info (infoMsg p)]⟩)
  | .ok (composition_link, ws) =>
    match composition_link with
    | none =>
        .ok ⟨st.fs, st.log ++ [LogMsg.info (infoMsg p)] ++ ws.map LogMsg.warning
               ++ [LogMsg.warning (noLinkMsg p)]⟩
    | some link =>
      match download_composition_net env.fetchPayload link with
      | .ok composition =>
          .ok ⟨writeFile (mkdirIfNeeded st.fs (exportDir dateStr))
                 (outPath dateStr p.ticker) composition,
               st.log ++ [LogMsg.info (infoMsg p)] ++ ws.map LogMsg.warning⟩
      | .error PyError.valueError =>
          .ok ⟨st.fs, st.log ++ [LogMsg.info (infoMsg p)] ++ ws.map LogMsg.warning
                 ++ [LogMsg.warning (invalidMsg p)]⟩
      | .error e =>
          .error (e, ⟨st.fs, st.log ++ [LogMsg.info (infoMsg p)] ++ ws.map LogMsg.warning⟩)

/-- The `for` loop over the product listing; an escaping exception carries the
state already accumulated. -/
def runProducts (env : Env) (dateStr : String) :
    RunState → List Product → Except (PyError × RunState) RunState
  | st, [] => .ok st
  | st, p :: ps =>
    match processProduct env dateStr st p with
    | .ok st' => runProducts env dateStr st' ps
    | .error e => .error e

/-- `ISharesLoader.download_compositions_of_country`: load the listing, run
the loop; the `@logger.catch()` decorator absorbs any escaping exception,
logs it, and the call returns normally either way. -/
def download_compositions_of_country (env : Env) (country : String)
    (dateStr : String) (fs₀ : FS) : RunState :=
  match load_ishares_products env.dataFiles country with
  | .error e => ⟨fs₀, [LogMsg.caught e]⟩
  | .ok products =>
    match runProducts env dateStr ⟨fs₀, []⟩ products with
    | .ok st => st
    | .error (e, st) => ⟨st.fs, st.log ++ [LogMsg.caught e]⟩

/-- Classification of how the loop body treats one product, determined by the
environment alone. -/
inductive Outcome
  | success (f : Frame)
  | noLink
  | badPayload
  | crash (e : PyError)
deriving DecidableEq, Repr

/-- `true` exactly on the `crash` outcome. -/
def Outcome.isCrash : Outcome → Bool
  | .crash _ => true
  | _ => false

/-- The outcome of one product under an environment: mirrors the decision
points of `processProduct`. -/
def productOutcome (env : Env) (p : Product) : Outcome :=
  match get_composition_download_link env.fetchPage p.url with
  | .error e => .crash e
  | .ok (none, _) => .noLink
  | .ok (some link, _) =>
    match download_composition_net env.fetchPayload link with
    | .ok f => .success f
    | .error PyError.valueError => .badPayload
    | .error e => .crash e

/-! ### Concrete worlds used to instantiate the theorems -/

/-- A provider payload of the documented shape: 9 preamble lines, the header
at index 9, one data row of matching width, one trailer line. -/
def goodPayload : List (List String) :=
  List.replicate 9 ["preamble"] ++ [["Ticker", "Weight"]] ++ [["IBM", "1.0"]] ++ [["footer"]]

/-- A payload whose data row is wider than its header row: `pd.DataFrame`
raises `ValueError` on it. -/
def badPayload : List (List String) :=
  List.replicate 9 ["preamble"] ++ [["Ticker"]] ++ [["IBM", "1.0"]] ++ [["footer"]]

/-- Two products; the first one's composition file is empty (fewer than 10
lines), the second one's is well-formed. -/
def envCrash : Env where
  fetchPage := fun u =>
    if u = "uA" then .ok [some "/a.csv"]
    else if u = "uB" then .ok [some "/b.csv"]
    else .error PyError.netError
  fetchPayload := fun l =>
    if l = "https://www.ishares.com/a.csv" then .ok []
    else if l = "https://www.ishares.com/b.csv" then .ok goodPayload
    else .error PyError.netError
  dataFiles := fun q =>
    if q = screenerPath "us" then some [⟨"AAA", "uA"⟩, ⟨"BBB", "uB"⟩] else none

/-- Three products: one downloads cleanly, one has a page without anchors,
one has a payload that raises `ValueError`. -/
def envMixed : Env where
  fetchPage := fun u =>
    if u = "uA" then .ok [some "/a.csv"]
    else if u = "uB" then .ok []
    else if u = "uC" then .ok [some "/c.csv"]
    else .error PyError.netError
  fetchPayload := fun l =>
    if l = "https://www.ishares.com/a.csv" then .ok goodPayload
    else if l = "https://www.ishares.com/c.csv" then .ok badPayload
    else .error PyError.netError
  dataFiles := fun q =>
    if q = screenerPath "us" then some [⟨"AAA", "uA"⟩, ⟨"BBB", "uB"⟩, ⟨"CCC", "uC"⟩]
    else none

/-- Two products; the first one's product page request fails on the network,
the second one would download cleanly. -/
def envNet : Env where
  fetchPage := fun u =>
    if u = "uB" then .ok [some "/b.csv"] else .error PyError.netError
  fetchPayload := fun l =>
    if l = "https://www.ishares.com/b.csv" then .ok goodPayload
    else .error PyError.netError
  dataFiles := fun q =>
    if q = screenerPath "us" then some [⟨"AAA", "uA"⟩, ⟨"BBB", "uB"⟩] else none

/-- Two products, both failing recoverably: no anchors on the first page, a
`ValueError` payload for the second. -/
def envAllFail : Env where
  fetchPage := fun u =>
    if u = "uB" then .ok []
    else if u = "uC" then .ok [some "/c.csv"]
    else .error PyError.netError
  fetchPayload := fun l =>
    if l = "https://www.ishares.com/c.csv" then .ok badPayload
    else .error PyError.netError
  dataFiles := fun q =>
    if q = screenerPath "us" then some [⟨"BBB", "uB"⟩, ⟨"CCC", "uC"⟩] else none

/-! ### Filesystem lemmas -/

lemma map_fst_replace (files : List (String × Frame)) (q : String) (f : Frame) :
    (files.map (fun pf => if pf.1 = q then (q, f) else pf)).map Prod.fst
      = files.map Prod.fst := by
  induction files with
  | nil => rfl
  | cons a t ih =>
    simp only [List.map_cons, ih, List.cons.injEq, and_true]
    by_cases h : a.1 = q
    · simp [h]
    · simp [h]

lemma fsPaths_writeFile (fs : FS) (q : String) (f : Frame) :
    fsPaths (writeFile fs q f)
      = if q ∈ fsPaths fs then fsPaths fs else fsPaths fs ++ [q] := by
  simp only [writeFile, fsPaths]
  by_cases hq : q ∈ List.map Prod.fst fs.files
  · simp only [hq, if_true, map_fst_replace]
  · simp [hq]

lemma mem_fsPaths_writeFile_self (fs : FS) (q : String) (f : Frame) :
    q ∈ fsPaths (writeFile fs q f) := by
  rw [fsPaths_writeFile]
  by_cases hq : q ∈ fsPaths fs
  · simp [hq]
  · simp [hq]

lemma mem_fsPaths_writeFile_of_mem (fs : FS) (q r : String) (f : Frame)
    (h : r ∈ fsPaths fs) : r ∈ fsPaths (writeFile fs q f) := by
  rw [fsPaths_writeFile]
  by_cases hq : q ∈ fsPaths fs
  · simpa [hq] using h
  · simp [hq, List.mem_append, h]

lemma mem_fsPaths_of_mem_writeFile (fs : FS) (q r : String) (f : Frame)
    (h : r ∈ fsPaths (writeFile fs q f)) : r ∈ fsPaths fs ∨ r = q := by
  rw [fsPaths_writeFile] at h
  by_cases hq : q ∈ fsPaths fs
  · simp [hq] at h
    exact Or.inl h
  · simp [hq, List.mem_append] at h
    exact h

lemma nodup_fsPaths_writeFile (fs : FS) (q : String) (f : Frame)
    (h : (fsPaths fs).Nodup) : (fsPaths (writeFile fs q f)).Nodup := by
  rw [fsPaths_writeFile]
  by_cases hq : q ∈ fsPaths fs
  · simpa [hq] using h
  · simp only [hq, if_false]
    simpa [List.nodup_append] using ⟨h, hq⟩

lemma fsPaths_writeFile_of_mem (fs : FS) (q : String) (f : Frame)
    (h : q ∈ fsPaths fs) : fsPaths (writeFile fs q f) = fsPaths fs := by
  rw [fsPaths_writeFile, if_pos h]

lemma files_mkdirIfNeeded (fs : FS) (dir : String) :
    (mkdirIfNeeded fs dir).files = fs.files := by
  unfold mkdirIfNeeded
  split <;> rfl

lemma fsPaths_mkdirIfNeeded (fs : FS) (dir : String) :
    fsPaths (mkdirIfNeeded fs dir) = fsPaths fs := by
  unfold fsPaths
  rw [files_mkdirIfNeeded]

/-! ### Per-product behaviour of the loop body, as a function of `productOutcome` -/

lemma processProduct_of_crash (env : Env) (d : String) (st : RunState) (p : Product)
    (e : PyError) (h : productOutcome env p = Outcome.crash e) :
    ∃ st₁, processProduct env d st p = .error (e, st₁) ∧ st₁.fs = st.fs := by
  unfold productOutcome at h
  unfold processProduct
  cases h1 : get_composition_download_link env.fetchPage p.url with
  | error e' =>
    simp only [h1] at h
    cases h
    exact ⟨_, rfl, rfl⟩
  | ok pair =>
    obtain ⟨linkOpt, ws⟩ := pair
    cases linkOpt with
    | none => simp [h1] at h
    | some link =>
      simp only [h1] at h ⊢
      cases h2 : download_composition_net env.fetchPayload link with
      | ok f => simp [h2] at h
      | error e' => cases e' <;> simp_all

lemma processProduct_of_success (env : Env) (d : String) (st : RunState) (p : Product)
    (f : Frame) (h : productOutcome env p = Outcome.success f) :
    ∃ st₁, processProduct env d st p = .ok st₁ ∧
      st₁.fs = writeFile (mkdirIfNeeded st.fs (exportDir d)) (outPath d p.ticker) f ∧
      (∀ m ∈ st.log, m ∈ st₁.log) := by
  unfold productOutcome at h
  unfold processProduct
  cases h1 : get_composition_download_link env.fetchPage p.url with
  | error e' => simp [h1] at h
  | ok pair =>
    obtain ⟨linkOpt, ws⟩ := pair
    cases linkOpt with
    | none => simp [h1] at h
    | some link =>
      simp only [h1] at h ⊢
      cases h2 : download_composition_net env.fetchPayload link with
      | ok f' =>
        simp only [h2] at h
        cases h
        exact ⟨_, rfl, rfl, fun m hm => by simp [hm]⟩
      | error e' => cases e' <;> simp [h2] at h

lemma processProduct_of_noLink (env : Env) (d : String) (st : RunState) (p : Product)
    (h : productOutcome env p = Outcome.noLink) :
    ∃ st₁, processProduct env d st p = .ok st₁ ∧ st₁.fs = st.fs ∧
      (∀ m ∈ st.log, m ∈ st₁.log) ∧ LogMsg.warning (noLinkMsg p) ∈ st₁.log := by
  unfold productOutcome at h
  unfold processProduct
  cases h1 : get_composition_download_link env.fetchPage p.url with
  | error e' => simp [h1] at h
  | ok pair =>
    obtain ⟨linkOpt, ws⟩ := pair
    cases linkOpt with
    | none =>
      simp only [h1]
      exact ⟨_, rfl, rfl, fun m hm => by simp [hm], by simp⟩
    | some link =>
      simp only [h1] at h
      cases h2 : download_composition_net env.fetchPayload link with
      | ok f => simp [h2] at h
      | error e' => cases e' <;> simp [h2] at h

lemma processProduct_of_badPayload (env : Env) (d : String) (st : RunState) (p : Product)
    (h : productOutcome env p = Outcome.badPayload) :
    ∃ st₁, processProduct env d st p = .ok st₁ ∧ st₁.fs = st.fs ∧
      (∀ m ∈ st.log, m ∈ st₁.log) ∧ LogMsg.warning (invalidMsg p) ∈ st₁.log := by
  unfold productOutcome at h
  unfold processProduct
  cases h1 : get_composition_download_link env.fetchPage p.url with
  | error e' => simp [h1] at h
  | ok pair =>
    obtain ⟨linkOpt, ws⟩ := pair
    cases linkOpt with
    | none => simp [h1] at h
    | some link =>
      simp only [h1] at h ⊢
      cases h2 : download_composition_net env.fetchPayload link with
      | ok f => simp [h2] at h
      | error e' =>
        cases e' <;> simp [h2] at h
        simp only [h2]
        exact ⟨_, rfl, rfl, fun m hm => by simp [hm], by simp⟩

lemma processProduct_ok_fs (env : Env) (d : String) (st st₁ : RunState) (p : Product)
    (h : processProduct env d st p = .ok st₁) :
    (∃ f, productOutcome env p = Outcome.success f ∧
        st₁.fs = writeFile (mkdirIfNeeded st.fs (exportDir d)) (outPath d p.ticker) f) ∨
      st₁.fs = st.fs := by
  cases ho : productOutcome env p with
  | success f =>
    obtain ⟨st₂, h2, hfs, _⟩ := processProduct_of_success env d st p f ho
    rw [h2] at h
    cases h
    exact Or.inl ⟨f, rfl, hfs⟩
  | noLink =>
    obtain ⟨st₂, h2, hfs, _, _⟩ := processProduct_of_noLink env d st p ho
    rw [h2] at h
    cases h
    exact Or.inr hfs
  | badPayload =>
    obtain ⟨st₂, h2, hfs, _, _⟩ := processProduct_of_badPayload env d st p ho
    rw [h2] at h
    cases h
    exact Or.inr hfs
  | crash e =>
    obtain ⟨st₂, h2, _⟩ := processProduct_of_crash env d st p e ho
    rw [h2] at h
    cases h

lemma processProduct_ok_log (env : Env) (d : String) (st st₁ : RunState) (p : Product)
    (h : processProduct env d st p = .ok st₁) : ∀ m ∈ st.log, m ∈ st₁.log := by
  cases ho : productOutcome env p with
  | success f =>
    obtain ⟨st₂, h2, _, hlog⟩ := processProduct_of_success env d st p f ho
    rw [h2] at h
    cases h
    exact hlog
  | noLink =>
    obtain ⟨st₂, h2, _, hlog, _⟩ := processProduct_of_noLink env d st p ho
    rw [h2] at h
    cases h
    exact hlog
  | badPayload =>
    obtain ⟨st₂, h2, _, hlog, _⟩ := processProduct_of_badPayload env d st p ho
    rw [h2] at h
    cases h
    exact hlog
  | crash e =>
    obtain ⟨st₂, h2, _⟩ := processProduct_of_crash env d st p e ho
    rw [h2] at h
    cases h

lemma processProduct_ok_of_not_crash (env : Env) (d : String) (st : RunState)
    (p : Product) (h : (productOutcome env p).isCrash = false) :
    ∃ st₁, processProduct env d st p = .ok st₁ := by
  cases ho : productOutcome env p with
  | success f => exact ⟨_, (processProduct_of_success env d st p f ho).choose_spec.1⟩
  | noLink => exact ⟨_, (processProduct_of_noLink env d st p ho).choose_spec.1⟩
  | badPayload => exact ⟨_, (processProduct_of_badPayload env d st p ho).choose_spec.1⟩
  | crash e => rw [ho] at h; simp [Outcome.isCrash] at h

lemma processProduct_err_fs (env : Env) (d : String) (st st₁ : RunState) (p : Product)
    (e : PyError) (h : processProduct env d st p = .error (e, st₁)) : st₁.fs = st.fs := by
  cases ho : productOutcome env p with
  | success f =>
    obtain ⟨st₂, h2, _, _⟩ := processProduct_of_success env d st p f ho
    rw [h2] at h
    cases h
  | noLink =>
    obtain ⟨st₂, h2, _, _, _⟩ := processProduct_of_noLink env d st p ho
    rw [h2] at h
    cases h
  | badPayload =>
    obtain ⟨st₂, h2, _, _, _⟩ := processProduct_of_badPayload env d st p ho
    rw [h2] at h
    cases h
  | crash e' =>
    obtain ⟨st₂, h2, hfs⟩ := processProduct_of_crash env d st p e' ho
    rw [h2] at h
    cases h
    exact hfs

lemma processProduct_paths_mono (env : Env) (d : String) (st st₁ : RunState)
    (p : Product) (r : String) (h : processProduct env d st p = .ok st₁)
    (hr : r ∈ fsPaths st.fs) : r ∈ fsPaths st₁.fs := by
  rcases processProduct_ok_fs env d st st₁ p h with ⟨f, _, hfs⟩ | hfs
  · rw [hfs]
    exact mem_fsPaths_writeFile_of_mem _ _ _ _ (by rwa [fsPaths_mkdirIfNeeded])
  · rwa [hfs]

lemma processProduct_paths_nodup (env : Env) (d : String) (st st₁ : RunState)
    (p : Product) (h : processProduct env d st p = .ok st₁)
    (hn : (fsPaths st.fs).Nodup) : (fsPaths st₁.fs).Nodup := by
  rcases processProduct_ok_fs env d st st₁ p h with ⟨f, _, hfs⟩ | hfs
  · rw [hfs]
    exact nodup_fsPaths_writeFile _ _ _ (by rwa [fsPaths_mkdirIfNeeded])
  · rwa [hfs]

/-! ### Behaviour of the whole product loop -/

lemma runProducts_ok_of_no_crash (env : Env) (d : String) :
    ∀ (ps : List Product) (st : RunState),
      (∀ p ∈ ps, (productOutcome env p).isCrash = false) →
      ∃ st', runProducts env d st ps = .ok st' := by
  intro ps
  induction ps with
  | nil => exact fun st _ => ⟨st, rfl⟩
  | cons q ps ih =>
    intro st hps
    obtain ⟨st₁, h1⟩ :=
      processProduct_ok_of_not_crash env d st q (hps q (by simp))
    obtain ⟨st', h'⟩ := ih st₁ (fun p hp => hps p (by simp [hp]))
    exact ⟨st', by simp [runProducts, h1, h']⟩

lemma runProducts_log_mono (env : Env) (d : String) :
    ∀ (ps : List Product) (st st' : RunState),
      runProducts env d st ps = .ok st' → ∀ m ∈ st.log, m ∈ st'.log := by
  intro ps
  induction ps with
  | nil =>
    intro st st' h
    cases h
    exact fun m hm => hm
  | cons q ps ih =>
    intro st st' h
    cases h1 : processProduct env d st q with
    | ok st₁ =>
      rw [runProducts, h1] at h
      exact fun m hm =>
        ih st₁ st' h m (processProduct_ok_log env d st st₁ q h1 m hm)
    | error e => rw [runProducts, h1] at h; cases h

lemma runProducts_paths_mono (env : Env) (d : String) :
    ∀ (ps : List Product) (st st' : RunState),
      runProducts env d st ps = .ok st' →
      ∀ r ∈ fsPaths st.fs, r ∈ fsPaths st'.fs := by
  intro ps
  induction ps with
  | nil =>
    intro st st' h
    cases h
    exact fun r hr => hr
  | cons q ps ih =>
    intro st st' h
    cases h1 : processProduct env d st q with
    | ok st₁ =>
      rw [runProducts, h1] at h
      exact fun r hr =>
        ih st₁ st' h r (processProduct_paths_mono env d st st₁ q r h1 hr)
    | error e => rw [runProducts, h1] at h; cases h

lemma runProducts_success_mem (env : Env) (d : String) :
    ∀ (ps : List Product) (st st' : RunState),
      runProducts env d st ps = .ok st' →
      ∀ p ∈ ps, ∀ f, productOutcome env p = Outcome.success f →
        outPath d p.ticker ∈ fsPaths st'.fs := by
  intro ps
  induction ps with
  | nil => intro st st' _ p hp; cases hp
  | cons q ps ih =>
    intro st st' h p hp f hf
    rcases List.mem_cons.mp hp with rfl | hp'
    · obtain ⟨st₂, h2, hfs, _⟩ := processProduct_of_success env d st p f hf
      rw [runProducts, h2] at h
      refine runProducts_paths_mono env d ps st₂ st' h _ ?_
      rw [hfs]
      exact mem_fsPaths_writeFile_self _ _ _
    · cases h1 : processProduct env d st q with
      | ok st₁ =>
        rw [runProducts, h1] at h
        exact ih st₁ st' h p hp' f hf
      | error e => rw [runProducts, h1] at h; cases h

lemma runProducts_paths_subset (env : Env) (d : String) :
    ∀ (ps : List Product) (st st' : RunState),
      runProducts env d st ps = .ok st' →
      ∀ r ∈ fsPaths st'.fs,
        r ∈ fsPaths st.fs ∨
          ∃ p, p ∈ ps ∧ ∃ f, productOutcome env p = Outcome.success f ∧
            r = outPath d p.ticker := by
  intro ps
  induction ps with
  | nil =>
    intro st st' h
    cases h
    exact fun r hr => Or.inl hr
  | cons q ps ih =>
    intro st st' h r hr
    cases h1 : processProduct env d st q with
    | ok st₁ =>
      rw [runProducts, h1] at h
      rcases ih st₁ st' h r hr with h₁ | ⟨p, hp, f, hf, hr'⟩
      · rcases processProduct_ok_fs env d st st₁ q h1 with ⟨f, hf, hfs⟩ | hfs
        · rw [hfs] at h₁
          rcases mem_fsPaths_of_mem_writeFile _ _ _ _ h₁ with h₂ | h₂
          · rw [fsPaths_mkdirIfNeeded] at h₂
            exact Or.inl h₂
          · exact Or.inr ⟨q, by simp, f, hf, h₂⟩
        · rw [hfs] at h₁
          exact Or.inl h₁
      · exact Or.inr ⟨p, by simp [hp], f, hf, hr'⟩
    | error e => rw [runProducts, h1] at h; cases h

lemma runProducts_paths_nodup (env : Env) (d : String) :
    ∀ (ps : List Product) (st st' : RunState),
      runProducts env d st ps = .ok st' →
      (fsPaths st.fs).Nodup → (fsPaths st'.fs).Nodup := by
  intro ps
  induction ps with
  | nil =>
    intro st st' h
    cases h
    exact fun hn => hn
  | cons q ps ih =>
    intro st st' h hn
    cases h1 : processProduct env d st q with
    | ok st₁ =>
      rw [runProducts, h1] at h
      exact ih st₁ st' h (processProduct_paths_nodup env d st st₁ q h1 hn)
    | error e => rw [runProducts, h1] at h; cases h

lemma runProducts_warn_noLink (env : Env) (d : String) :
    ∀ (ps : List Product) (st st' : RunState),
      runProducts env d st ps = .ok st' →
      ∀ p ∈ ps, productOutcome env p = Outcome.noLink →
        LogMsg.warning (noLinkMsg p) ∈ st'.log := by
  intro ps
  induction ps with
  | nil => intro st st' _ p hp; cases hp
  | cons q ps ih =>
    intro st st' h p hp hf
    rcases List.mem_cons.mp hp with rfl | hp'
    · obtain ⟨st₂, h2, _, _, hw⟩ := processProduct_of_noLink env d st p hf
      rw [runProducts, h2] at h
      exact runProducts_log_mono env d ps st₂ st' h _ hw
    · cases h1 : processProduct env d st q with
      | ok st₁ =>
        rw [runProducts, h1] at h
        exact ih st₁ st' h p hp' hf
      | error e => rw [runProducts, h1] at h; cases h

lemma runProducts_warn_badPayload (env : Env) (d : String) :
    ∀ (ps : List Product) (st st' : RunState),
      runProducts env d st ps = .ok st' →
      ∀ p ∈ ps, productOutcome env p = Outcome.badPayload →
        LogMsg.warning (invalidMsg p) ∈ st'.log := by
  intro ps
  induction ps with
  | nil => intro st st' _ p hp; cases hp
  | cons q ps ih =>
    intro st st' h p hp hf
    rcases List.mem_cons.mp hp with rfl | hp'
    · obtain ⟨st₂, h2, _, _, hw⟩ := processProduct_of_badPayload env d st p hf
      rw [runProducts, h2] at h
      exact runProducts_log_mono env d ps st₂ st' h _ hw
    · cases h1 : processProduct env d st q with
      | ok st₁ =>
        rw [runProducts, h1] at h
        exact ih st₁ st' h p hp' hf
      | error e => rw [runProducts, h1] at h; cases h

lemma runProducts_crash_err (env : Env) (d : String) :
    ∀ (ps₁ : List Product) (p : Product) (ps₂ : List Product) (st : RunState)
      (e : PyError),
      (∀ q ∈ ps₁, (productOutcome env q).isCrash = false) →
      productOutcome env p = Outcome.crash e →
      ∃ st₁, runProducts env d st (ps₁ ++ p :: ps₂) = .error (e, st₁) := by
  intro ps₁
  induction ps₁ with
  | nil =>
    intro p ps₂ st e _ hp
    obtain ⟨st₁, h1, _⟩ := processProduct_of_crash env d st p e hp
    exact ⟨st₁, by simp [runProducts, h1]⟩
  | cons q ps₁ ih =>
    intro p ps₂ st e hq hp
    obtain ⟨st₁, h1⟩ :=
      processProduct_ok_of_not_crash env d st q (hq q (by simp))
    obtain ⟨st₂, h2⟩ := ih p ps₂ st₁ e (fun r hr => hq r (by simp [hr])) hp
    exact ⟨st₂, by simp [runProducts, h1, h2]⟩

lemma runProducts_no_success_fs (env : Env) (d : String) :
    ∀ (ps : List Product) (st : RunState),
      (∀ p ∈ ps, ∀ f, productOutcome env p ≠ Outcome.success f) →
      (∀ st', runProducts env d st ps = .ok st' → st'.fs = st.fs) ∧
        (∀ e st₁, runProducts env d st ps = .error (e, st₁) → st₁.fs = st.fs) := by
  intro ps
  induction ps with
  | nil =>
    intro st _
    constructor
    · intro st' h; cases h; rfl
    · intro e st₁ h; cases h
  | cons q ps ih =>
    intro st hps
    cases h1 : processProduct env d st q with
    | ok st₁ =>
      have hfs : st₁.fs = st.fs := by
        rcases processProduct_ok_fs env d st st₁ q h1 with ⟨f, hf, _⟩ | hfs
        · exact absurd hf (hps q (by simp) f)
        · exact hfs
      obtain ⟨ihok, iherr⟩ := ih st₁ (fun p hp => hps p (by simp [hp]))
      constructor
      · intro st' h
        rw [runProducts, h1] at h
        rw [ihok st' h, hfs]
      · intro e st₂ h
        rw [runProducts, h1] at h
        rw [iherr e st₂ h, hfs]
    | error err =>
      obtain ⟨e, st₁⟩ := err
      have hfs : st₁.fs = st.fs := processProduct_err_fs env d st st₁ q e h1
      constructor
      · intro st' h
        rw [runProducts, h1] at h
        cases h
      · intro e' st₂ h
        rw [runProducts, h1] at h
        cases h
        exact hfs

lemma runProducts_paths_eq (env : Env) (d : String) :
    ∀ (ps : List Product) (st : RunState),
      (∀ p ∈ ps, ∀ f, productOutcome env p = Outcome.success f →
        outPath d p.ticker ∈ fsPaths st.fs) →
      ∀ st', runProducts env d st ps = .ok st' → fsPaths st'.fs = fsPaths st.fs := by
  intro ps
  induction ps with
  | nil =>
    intro st _ st' h
    cases h
    rfl
  | cons q ps ih =>
    intro st hps st' h
    cases h1 : processProduct env d st q with
    | ok st₁ =>
      rw [runProducts, h1] at h
      have hpaths : fsPaths st₁.fs = fsPaths st.fs := by
        rcases processProduct_ok_fs env d st st₁ q h1 with ⟨f, hf, hfs⟩ | hfs
        · rw [hfs, fsPaths_writeFile_of_mem, fsPaths_mkdirIfNeeded]
          rw [fsPaths_mkdirIfNeeded]
          exact hps q (by simp) f hf
        · rw [hfs]
      rw [ih st₁ (fun p hp f hf => by
            rw [hpaths]; exact hps p (by simp [hp]) f hf) st' h, hpaths]
    | error e => rw [runProducts, h1] at h; cases h

/-- Unfolding of the top level when the listing loads and the loop completes. -/
lemma download_top_ok (env : Env) (country d : String) (fs₀ : FS)
    (products : List Product) (st' : RunState)
    (hload : env.dataFiles (screenerPath country) = some products)
    (hrun : runProducts env d ⟨fs₀, []⟩ products = .ok st') :
    download_compositions_of_country env country d fs₀ = st' := by
  simp only [download_compositions_of_country, load_ishares_products, hload, hrun]

/-- Unfolding of the top level when the loop escapes with an exception: the
`logger.catch` decorator records it and the call still returns normally. -/
lemma download_top_err (env : Env) (country d : String) (fs₀ : FS)
    (products : List Product) (e : PyError) (st₁ : RunState)
    (hload : env.dataFiles (screenerPath country) = some products)
    (hrun : runProducts env d ⟨fs₀, []⟩ products = .error (e, st₁)) :
    download_compositions_of_country env country d fs₀
      = ⟨st₁.fs, st₁.log ++ [LogMsg.caught e]⟩ := by
  simp only [download_compositions_of_country, load_ishares_products, hload, hrun]

/-! ### The anchor scan -/

lemma containsCsv_empty : containsCsv "" = false := by decide

lemma scanAnchors_first (post : List (Option String)) :
    ∀ pre : List (Option String),
      (∀ s, Option.some s ∈ pre → containsCsv s = false) →
      ∀ h : String, containsCsv h = true →
        ∃ ws, scanAnchors (pre ++ Option.some h :: post) = (some h, ws) := by
  intro pre
  induction pre with
  | nil => exact fun _ h hh => ⟨[], by simp [scanAnchors, hh]⟩
  | cons a pre ih =>
    intro hpre h hh
    cases a with
    | none =>
      obtain ⟨ws, hws⟩ := ih (fun s hs => hpre s (by simp [hs])) h hh
      exact ⟨typeErrorWarning :: ws, by simp [scanAnchors, hws]⟩
    | some s =>
      have hs : containsCsv s = false := hpre s (by simp)
      obtain ⟨ws, hws⟩ := ih (fun t ht => hpre t (by simp [ht])) h hh
      exact ⟨ws, by simp [scanAnchors, hs, hws]⟩

lemma scanAnchors_skip (post : List (Option String)) :
    ∀ pre : List (Option String),
      (scanAnchors (pre ++ Option.none :: post)).1 = (scanAnchors (pre ++ post)).1 := by
  intro pre
  induction pre with
  | nil => simp [scanAnchors]
  | cons a pre ih =>
    cases a with
    | none => simpa [scanAnchors] using ih
    | some s =>
      by_cases hs : containsCsv s
      · simp [scanAnchors, hs]
      · simpa [scanAnchors, hs] using ih

lemma scanAnchors_warn (post : List (Option String)) :
    ∀ pre : List (Option String),
      (∀ s, Option.some s ∈ pre → containsCsv s = false) →
      typeErrorWarning ∈ (scanAnchors (pre ++ Option.none :: post)).2 := by
  intro pre
  induction pre with
  | nil => simp [scanAnchors]
  | cons a pre ih =>
    intro hpre
    cases a with
    | none => simp [scanAnchors]
    | some s =>
      have hs : containsCsv s = false := hpre s (by simp)
      simpa [scanAnchors, hs] using ih (fun t ht => hpre t (by simp [ht]))

lemma scanAnchors_some_csv :
    ∀ (l : List (Option String)) (h : String) (ws : List String),
      scanAnchors l = (some h, ws) → containsCsv h = true := by
  intro l
  induction l with
  | nil => intro h ws hl; cases hl
  | cons a rest ih =>
    intro h ws hl
    cases a with
    | none =>
      simp only [scanAnchors] at hl
      have h1 : (scanAnchors rest).1 = some h := by
        simpa using congrArg Prod.fst hl
      exact ih h (scanAnchors rest).2 (by rw [← h1])
    | some s =>
      by_cases hs : containsCsv s
      · simp only [scanAnchors, hs, if_true] at hl
        cases hl
        exact hs
      · simp only [scanAnchors, hs, if_false] at hl
        exact ih h ws hl

lemma link_of_scan_some (fetchPage : String → Except PyError (List (Option String)))
    (url : String) (anchors : List (Option String)) (h : String) (ws : List String)
    (hpage : fetchPage url = .ok anchors)
    (hscan : scanAnchors anchors = (some h, ws)) :
    get_composition_download_link fetchPage url
      = .ok (some (isharesDomain ++ h), ws) := by
  have hcsv : containsCsv h = true := scanAnchors_some_csv anchors h ws hscan
  have hne : ¬ h = "" := by
    intro he
    rw [he, containsCsv_empty] at hcsv
    cases hcsv
  simp [get_composition_download_link, hpage, hscan, hne]

lemma link_of_empty_page (fetchPage : String → Except PyError (List (Option String)))
    (url : String) (hpage : fetchPage url = .ok []) :
    get_composition_download_link fetchPage url = .ok (none, []) := by
  simp [get_composition_download_link, hpage, scanAnchors]

/-! ### The positional reshaping of the composition payload -/

lemma download_composition_shape (pre : List (List String)) (hdr : List String)
    (data : List (List String)) (trail : List String)
    (hpre : pre.length = 9) (hw : data ≠ [] → maxWidth data = hdr.length) :
    download_composition (pre ++ hdr :: (data ++ [trail])) = .ok ⟨hdr, data⟩ := by
  have h9 : (pre ++ hdr :: (data ++ [trail]))[9]? = some hdr := by
    rw [List.getElem?_append_right (by omega)]
    simp [hpre]
  have h10 : ((pre ++ hdr :: (data ++ [trail])).drop 10).dropLast = data := by
    have hsplit : pre ++ hdr :: (data ++ [trail])
        = (pre ++ [hdr]) ++ (data ++ [trail]) := by simp
    have hlen : (pre ++ [hdr]).length = 10 := by simp [hpre]
    rw [hsplit, ← hlen, List.drop_left, List.dropLast_concat]
  simp only [download_composition, h9, h10]
  cases data with
  | nil => simp [mkDataFrame]
  | cons r rs =>
    have := hw (by simp)
    simp [mkDataFrame, this]

lemma download_composition_short (payload : List (List String))
    (h : payload.length < 10) :
    download_composition payload = .error PyError.indexError := by
  have h9 : payload[9]? = none := by
    rw [List.getElem?_eq_none]
    omega
  simp [download_composition, h9]

/-! ### Claim theorems -/

/-- Claim C2, counterexample: a payload of exactly 10 lines is shorter than 11
lines, yet `download_composition` does not raise — it returns an empty table
with the line at index 9 as header, because `my_list[10:-1]` is empty and
`pd.DataFrame([], columns=...)` succeeds. -/
theorem claim_C2_counterexample :
    (List.replicate 10 (["a"] : List String)).length < 11 ∧
    download_composition (List.replicate 10 ["a"]) = .ok ⟨["a"], []⟩ := by
  decide

/-- Claim C2 (amended): a payload of 9 preamble lines, one header line at
index 9, M data lines whose widest line has exactly the header's field count,
and one trailer line yields a table with exactly the M data rows and the
header fields of line index 9; a payload shorter than 10 lines raises an
index error (a 10-line payload yields an empty table instead of an error). -/
theorem claim_C2_amended :
    (∀ (pre : List (List String)) (hdr : List String) (data : List (List String))
        (trail : List String), pre.length = 9 →
        (data ≠ [] → maxWidth data = hdr.length) →
        download_composition (pre ++ hdr :: (data ++ [trail])) = .ok ⟨hdr, data⟩) ∧
    (∀ payload : List (List String), payload.length < 10 →
        download_composition payload = .error PyError.indexError) :=
  ⟨fun pre hdr data trail h1 h2 => download_composition_shape pre hdr data trail h1 h2,
   fun payload h => download_composition_short payload h⟩

/-- Claim C2, witness: the amended statement evaluated on a concrete
well-formed payload and on the empty payload. -/
theorem claim_C2_witness :
    download_composition (List.replicate 9 ["m"]
        ++ ["Ticker", "Weight"] :: ([["IBM", "3.2"]] ++ [["footer"]]))
      = .ok ⟨["Ticker", "Weight"], [["IBM", "3.2"]]⟩ ∧
    download_composition [] = .error PyError.indexError :=
  ⟨claim_C2_amended.1 (List.replicate 9 ["m"]) ["Ticker", "Weight"]
      [["IBM", "3.2"]] ["footer"] (by decide) (by decide),
   claim_C2_amended.2 [] (by decide)⟩

/-- Claim C3: the resolved link is built from the href of the first anchor in
document order whose href contains "csv", whatever non-csv anchors come
before or after; a page with zero anchor elements yields `None`. -/
theorem claim_C3_first_csv
    (fetchPage : String → Except PyError (List (Option String)))
    (url : String) (anchors : List (Option String))
    (hpage : fetchPage url = .ok anchors) :
    (anchors = [] → get_composition_download_link fetchPage url = .ok (none, [])) ∧
    (∀ (pre : List (Option String)) (h : String) (post : List (Option String)),
      anchors = pre ++ Option.some h :: post →
      containsCsv h = true →
      (∀ s, Option.some s ∈ pre → containsCsv s = false) →
      ∃ ws, get_composition_download_link fetchPage url
        = .ok (some (isharesDomain ++ h), ws)) := by
  constructor
  · intro he
    subst he
    exact link_of_empty_page fetchPage url hpage
  · intro pre h post he hcsv hpre
    subst he
    obtain ⟨ws, hws⟩ := scanAnchors_first post pre hpre h hcsv
    exact ⟨ws, link_of_scan_some fetchPage url _ h ws hpage hws⟩

/-- Claim C3, witness: a page whose first csv anchor sits behind a non-csv
anchor and an href-less anchor, and an anchor-free page. -/
theorem claim_C3_witness :
    (∃ ws, get_composition_download_link
        (fun _ => .ok [some "/idx.html", Option.none, some "/f.csv"]) "u"
      = .ok (some (isharesDomain ++ "/f.csv"), ws)) ∧
    get_composition_download_link
        (fun _ => .ok ([] : List (Option String))) "v" = .ok (none, []) := by
  constructor
  · exact (claim_C3_first_csv
        (fun _ => .ok [some "/idx.html", Option.none, some "/f.csv"]) "u" _ rfl).2
      [some "/idx.html", Option.none] "/f.csv" [] rfl (by decide)
      (by intro s hs; simp at hs; subst hs; decide)
  · exact (claim_C3_first_csv (fun _ => .ok ([] : List (Option String))) "v" _ rfl).1 rfl

/-- Claim C4, counterexample: an already-absolute csv href is prefixed with
the fixed domain anyway, producing a doubly-prefixed link — the code never
checks whether the href is relative. -/
theorem claim_C4_counterexample :
    get_composition_download_link
        (fun _ => .ok [some "https://www.ishares.com/fund.csv"]) "page"
      = .ok (some "https://www.ishares.comhttps://www.ishares.com/fund.csv", []) := by
  decide

/-- Claim C4 (amended): every found csv href, relative or absolute, is
prefixed with the provider's fixed domain unconditionally; an already-absolute
href therefore gets the domain prepended a second time. -/
theorem claim_C4_amended
    (fetchPage : String → Except PyError (List (Option String)))
    (url : String) (anchors : List (Option String)) (h : String) (ws : List String)
    (hpage : fetchPage url = .ok anchors)
    (hscan : scanAnchors anchors = (some h, ws)) :
    get_composition_download_link fetchPage url
      = .ok (some (isharesDomain ++ h), ws) :=
  link_of_scan_some fetchPage url anchors h ws hpage hscan

/-- Claim C4, witness: the amended statement on a concrete absolute href
hosted elsewhere. -/
theorem claim_C4_witness :
    get_composition_download_link
        (fun _ => .ok [some "https://other.host/data.csv"]) "w"
      = .ok (some (isharesDomain ++ "https://other.host/data.csv"), []) :=
  claim_C4_amended (fun _ => .ok [some "https://other.host/data.csv"]) "w"
    [some "https://other.host/data.csv"] "https://other.host/data.csv" []
    rfl (by decide)

/-- Claim C6: an anchor whose href attribute access fails (href absent, so
the membership test raises) is logged as a warning and skipped — the link
found is the same as on the page without that anchor, and the scan is never
aborted. -/
theorem claim_C6_scan_continues
    (fp1 fp2 : String → Except PyError (List (Option String)))
    (u1 u2 : String) (pre post : List (Option String))
    (h1 : fp1 u1 = .ok (pre ++ Option.none :: post))
    (h2 : fp2 u2 = .ok (pre ++ post)) :
    ∃ r w1 w2,
      get_composition_download_link fp1 u1 = .ok (r, w1) ∧
      get_composition_download_link fp2 u2 = .ok (r, w2) ∧
      ((∀ s, Option.some s ∈ pre → containsCsv s = false) →
        typeErrorWarning ∈ w1) := by
  have hskip := scanAnchors_skip post pre
  refine ⟨(match (scanAnchors (pre ++ post)).1 with
           | none => none
           | some l => if l = "" then none else some (isharesDomain ++ l)),
          (scanAnchors (pre ++ Option.none :: post)).2,
          (scanAnchors (pre ++ post)).2, ?_, ?_, ?_⟩
  · simp only [get_composition_download_link, h1]
    rw [hskip]
  · simp only [get_composition_download_link, h2]
  · intro hpre
    exact scanAnchors_warn post pre hpre

/-- Claim C6, witness: a page with one non-csv anchor, one href-less anchor
and one csv anchor resolves to the same link as the page without the
href-less anchor, and the type-error warning is recorded. -/
theorem claim_C6_witness :
    ∃ r w1 w2,
      get_composition_download_link
          (fun _ => .ok [some "/x.html", Option.none, some "/a.csv"]) "u"
        = .ok (r, w1) ∧
      get_composition_download_link
          (fun _ => .ok [some "/x.html", some "/a.csv"]) "v" = .ok (r, w2) ∧
      typeErrorWarning ∈ w1 := by
  obtain ⟨r, w1, w2, ha, hb, hw⟩ :=
    claim_C6_scan_continues
      (fun _ => .ok [some "/x.html", Option.none, some "/a.csv"])
      (fun _ => .ok [some "/x.html", some "/a.csv"]) "u" "v"
      [some "/x.html"] [some "/a.csv"] rfl rfl
  exact ⟨r, w1, w2, ha, hb, hw (by intro s hs; simp at hs; subst hs; decide)⟩

/-- Claim C7: every row returned by `load_iso_mapping` has space-free Alpha-2
and Alpha-3 codes, because both columns pass through `replace(' ', '')`. -/
theorem claim_C7_strip (rows : List IsoRow) (r : IsoRow)
    (hr : r ∈ load_iso_mapping rows) :
    (∀ c ∈ r.alpha2.data, c ≠ ' ') ∧ (∀ c ∈ r.alpha3.data, c ≠ ' ') := by
  obtain ⟨r₀, _, rfl⟩ := List.mem_map.mp hr
  constructor
  · intro c hc
    simp [pyReplaceSpace] at hc
    exact hc.2
  · intro c hc
    simp [pyReplaceSpace] at hc
    exact hc.2

/-- Claim C7, witness: the theorem applied to a concrete reference row whose
raw code cells carry stray spaces. -/
theorem claim_C7_witness :
    (∀ c ∈ (IsoRow.mk "United States" "US" "USA").alpha2.data, c ≠ ' ') ∧
    (∀ c ∈ (IsoRow.mk "United States" "US" "USA").alpha3.data, c ≠ ' ') :=
  claim_C7_strip [⟨"United States", " U S ", " US A"⟩]
    ⟨"United States", "US", "USA"⟩ (by decide)

/-- Claim C10: `load_ishares_products` is uniform in the country string — it
returns the parsed contents of `data/product_screener_<country>.csv`
unmodified when the file is present, raises a file-not-found error when it is
absent, and two calls whose screener files carry equal contents behave
identically; nothing special-cases "us". -/
theorem claim_C10_uniform (dataFiles : String → Option (List Product))
    (country : String) :
    (∀ rows, dataFiles (screenerPath country) = some rows →
        load_ishares_products dataFiles country = .ok rows) ∧
    (dataFiles (screenerPath country) = none →
        load_ishares_products dataFiles country = .error PyError.fileNotFound) ∧
    (∀ (g : String → Option (List Product)) (c₂ : String),
        dataFiles (screenerPath country) = g (screenerPath c₂) →
        load_ishares_products dataFiles country = load_ishares_products g c₂) := by
  refine ⟨?_, ?_, ?_⟩
  · intro rows h
    simp [load_ishares_products, h]
  · intro h
    simp [load_ishares_products, h]
  · intro g c₂ h
    unfold load_ishares_products
    rw [h]

/-- Claim C10, witness: a `data/` directory holding only a German screener
file — loading "de" returns its rows, loading "us" raises file-not-found. -/
theorem claim_C10_witness :
    load_ishares_products
        (fun q => if q = screenerPath "de" then some [⟨"EXS1", "uD"⟩] else none) "de"
      = .ok [⟨"EXS1", "uD"⟩] ∧
    load_ishares_products
        (fun q => if q = screenerPath "de" then some [⟨"EXS1", "uD"⟩] else none) "us"
      = .error PyError.fileNotFound :=
  ⟨(claim_C10_uniform
      (fun q => if q = screenerPath "de" then some [⟨"EXS1", "uD"⟩] else none) "de").1
      [⟨"EXS1", "uD"⟩] (by decide),
   (claim_C10_uniform
      (fun q => if q = screenerPath "de" then some [⟨"EXS1", "uD"⟩] else none) "us").2.1
      (by decide)⟩

/-- Claim C1, counterexample: the second product's link resolves and its
payload is well-formed, yet the run writes no file at all and records no
warning for the first product, whose 0-line payload raises `IndexError` —
which `except ValueError` does not catch, so the batch is aborted (the error
is absorbed only by the function-level `logger.catch`). -/
theorem claim_C1_counterexample :
    productOutcome envCrash ⟨"BBB", "uB"⟩
        = Outcome.success ⟨["Ticker", "Weight"], [["IBM", "1.0"]]⟩ ∧
    (download_compositions_of_country envCrash "us" "2026-10-12" emptyFS).fs.files = [] ∧
    (download_compositions_of_country envCrash "us" "2026-10-12" emptyFS).log
      = [LogMsg.info (infoMsg ⟨"AAA", "uA"⟩), LogMsg.caught PyError.indexError] := by
  decide

/-- Claim C1 (amended): provided no product's handling raises an uncaught
exception (a network failure, or a payload shorter than 10 lines raising
`IndexError`), the run writes exactly one output file per product with a
resolved link and well-formed payload — at that product's deterministic path
and at no other path — writes nothing for a product with an absent link or a
`ValueError` payload, records the corresponding warning for each such failed
product, and continues to the remaining products after either failure. -/
theorem claim_C1_amended (env : Env) (country dateStr : String)
    (products : List Product)
    (hload : env.dataFiles (screenerPath country) = some products)
    (hsafe : ∀ p ∈ products, (productOutcome env p).isCrash = false) :
    (∀ p ∈ products, ∀ f, productOutcome env p = Outcome.success f →
        outPath dateStr p.ticker
          ∈ fsPaths (download_compositions_of_country env country dateStr emptyFS).fs) ∧
    (∀ r ∈ fsPaths (download_compositions_of_country env country dateStr emptyFS).fs,
        ∃ p, p ∈ products ∧ (∃ f, productOutcome env p = Outcome.success f ∧
          r = outPath dateStr p.ticker)) ∧
    (fsPaths (download_compositions_of_country env country dateStr emptyFS).fs).Nodup ∧
    (∀ p ∈ products, productOutcome env p = Outcome.noLink →
        LogMsg.warning (noLinkMsg p)
          ∈ (download_compositions_of_country env country dateStr emptyFS).log) ∧
    (∀ p ∈ products, productOutcome env p = Outcome.badPayload →
        LogMsg.warning (invalidMsg p)
          ∈ (download_compositions_of_country env country dateStr emptyFS).log) := by
  obtain ⟨st', hrun⟩ :=
    runProducts_ok_of_no_crash env dateStr products ⟨emptyFS, []⟩ hsafe
  rw [download_top_ok env country dateStr emptyFS products st' hload hrun]
  refine ⟨?_, ?_, ?_, ?_, ?_⟩
  · exact fun p hp f hf =>
      runProducts_success_mem env dateStr products _ st' hrun p hp f hf
  · intro r hr
    rcases runProducts_paths_subset env dateStr products _ st' hrun r hr with h | h
    · simp [fsPaths, emptyFS] at h
    · exact h
  · exact runProducts_paths_nodup env dateStr products _ st' hrun
      (by simp [fsPaths, emptyFS])
  · exact fun p hp hf =>
      runProducts_warn_noLink env dateStr products _ st' hrun p hp hf
  · exact fun p hp hf =>
      runProducts_warn_badPayload env dateStr products _ st' hrun p hp hf

/-- Claim C1, witness: a listing with one clean product, one anchor-free page
and one `ValueError` payload — the clean product's file is present, and both
failure warnings are in the log. -/
theorem claim_C1_witness :
    outPath "2026-10-12" "AAA"
        ∈ fsPaths (download_compositions_of_country envMixed "us" "2026-10-12" emptyFS).fs ∧
    LogMsg.warning (noLinkMsg ⟨"BBB", "uB"⟩)
        ∈ (download_compositions_of_country envMixed "us" "2026-10-12" emptyFS).log ∧
    LogMsg.warning (invalidMsg ⟨"CCC", "uC"⟩)
        ∈ (download_compositions_of_country envMixed "us" "2026-10-12" emptyFS).log := by
  have h := claim_C1_amended envMixed "us" "2026-10-12"
    [⟨"AAA", "uA"⟩, ⟨"BBB", "uB"⟩, ⟨"CCC", "uC"⟩] (by decide) (by decide)
  exact ⟨h.1 ⟨"AAA", "uA"⟩ (by decide)
           ⟨["Ticker", "Weight"], [["IBM", "1.0"]]⟩ (by decide),
         h.2.2.2.1 ⟨"BBB", "uB"⟩ (by decide) (by decide),
         h.2.2.2.2 ⟨"CCC", "uC"⟩ (by decide) (by decide)⟩

/-- Claim C5, counterexample: a network failure on the first product's page
fetch escapes the loop — aborting the batch before the second (downloadable)
product is touched — but it does not propagate to the caller: the
`@logger.catch()` decorator absorbs it, the function returns normally, and
the failure is visible only as a logged error. -/
theorem claim_C5_counterexample :
    runProducts envNet "2026-10-12" ⟨emptyFS, []⟩ [⟨"AAA", "uA"⟩, ⟨"BBB", "uB"⟩]
      = .error (PyError.netError, ⟨emptyFS, [LogMsg.info (infoMsg ⟨"AAA", "uA"⟩)]⟩) ∧
    download_compositions_of_country envNet "us" "2026-10-12" emptyFS
      = ⟨emptyFS, [LogMsg.info (infoMsg ⟨"AAA", "uA"⟩),
                   LogMsg.caught PyError.netError]⟩ := by
  decide

/-- Claim C5 (amended): a network failure on a page or file fetch is not
caught inside the loop: it escapes, aborting the remainder of the batch, but
it does not reach the caller — the function-level `logger.catch` absorbs it,
records it, and the call returns normally. -/
theorem claim_C5_amended (env : Env) (country d : String)
    (products ps₁ : List Product) (p : Product) (ps₂ : List Product)
    (hload : env.dataFiles (screenerPath country) = some products)
    (hsplit : products = ps₁ ++ p :: ps₂)
    (hsafe : ∀ q ∈ ps₁, (productOutcome env q).isCrash = false)
    (hp : productOutcome env p = Outcome.crash PyError.netError) :
    ∃ st₁, runProducts env d ⟨emptyFS, []⟩ products
        = .error (PyError.netError, st₁) ∧
      download_compositions_of_country env country d emptyFS
        = ⟨st₁.fs, st₁.log ++ [LogMsg.caught PyError.netError]⟩ := by
  subst hsplit
  obtain ⟨st₁, h1⟩ :=
    runProducts_crash_err env d ps₁ p ps₂ ⟨emptyFS, []⟩ PyError.netError hsafe hp
  exact ⟨st₁, h1, download_top_err env country d emptyFS _ _ st₁ hload h1⟩

/-- Claim C5, witness: the amended statement instantiated on the concrete
two-product listing whose first page fetch fails. -/
theorem claim_C5_witness :
    ∃ st₁, runProducts envNet "2026-10-12" ⟨emptyFS, []⟩
        [⟨"AAA", "uA"⟩, ⟨"BBB", "uB"⟩] = .error (PyError.netError, st₁) ∧
      download_compositions_of_country envNet "us" "2026-10-12" emptyFS
        = ⟨st₁.fs, st₁.log ++ [LogMsg.caught PyError.netError]⟩ :=
  claim_C5_amended envNet "us" "2026-10-12" [⟨"AAA", "uA"⟩, ⟨"BBB", "uB"⟩]
    [] ⟨"AAA", "uA"⟩ [⟨"BBB", "uB"⟩] (by decide) rfl (by simp) (by decide)

/-- Claim C8: for every successfully fetched product with ticker T on run
date D, the run writes a file whose path is exactly
`downloads/compositions/<D>/<T>_holdings_<D>.csv`, and running the whole
download again on the same date against the resulting filesystem overwrites
in place: the set of file paths is unchanged. -/
theorem claim_C8_path (env : Env) (country d : String) (products : List Product)
    (hload : env.dataFiles (screenerPath country) = some products)
    (hsafe : ∀ p ∈ products, (productOutcome env p).isCrash = false) :
    (∀ p ∈ products, ∀ f, productOutcome env p = Outcome.success f →
        outPath d p.ticker
          ∈ fsPaths (download_compositions_of_country env country d emptyFS).fs ∧
        outPath d p.ticker
          = "downloads/compositions/" ++ d ++ "/" ++ p.ticker
              ++ "_holdings_" ++ d ++ ".csv") ∧
    fsPaths (download_compositions_of_country env country d
        (download_compositions_of_country env country d emptyFS).fs).fs
      = fsPaths (download_compositions_of_country env country d emptyFS).fs := by
  obtain ⟨st₁, hrun₁⟩ :=
    runProducts_ok_of_no_crash env d products ⟨emptyFS, []⟩ hsafe
  have htop₁ := download_top_ok env country d emptyFS products st₁ hload hrun₁
  obtain ⟨st₂, hrun₂⟩ :=
    runProducts_ok_of_no_crash env d products ⟨st₁.fs, []⟩ hsafe
  have htop₂ := download_top_ok env country d st₁.fs products st₂ hload hrun₂
  rw [htop₁, htop₂]
  constructor
  · intro p hp f hf
    exact ⟨runProducts_success_mem env d products _ st₁ hrun₁ p hp f hf, rfl⟩
  · refine runProducts_paths_eq env d products ⟨st₁.fs, []⟩ ?_ st₂ hrun₂
    intro p hp f hf
    exact runProducts_success_mem env d products _ st₁ hrun₁ p hp f hf

/-- Claim C8, witness: the concrete mixed listing — the clean product's file
is at the deterministic date-stamped path, and a same-day re-run leaves the
set of paths unchanged. -/
theorem claim_C8_witness :
    outPath "2026-10-12" "AAA"
        ∈ fsPaths (download_compositions_of_country envMixed "us" "2026-10-12" emptyFS).fs ∧
    fsPaths (download_compositions_of_country envMixed "us" "2026-10-12"
        (download_compositions_of_country envMixed "us" "2026-10-12" emptyFS).fs).fs
      = fsPaths (download_compositions_of_country envMixed "us" "2026-10-12" emptyFS).fs := by
  have h := claim_C8_path envMixed "us" "2026-10-12"
    [⟨"AAA", "uA"⟩, ⟨"BBB", "uB"⟩, ⟨"CCC", "uC"⟩] (by decide) (by decide)
  exact ⟨(h.1 ⟨"AAA", "uA"⟩ (by decide)
            ⟨["Ticker", "Weight"], [["IBM", "1.0"]]⟩ (by decide)).1, h.2⟩

/-- Claim C9: if no product of the run yields a successfully reshaped
composition (absent link, `ValueError` payload, or even an uncaught
per-product exception), the date-stamped directory is never created and the
filesystem — directories and files alike — is exactly what it was before the
run; the directory is only ever created after a first successful download. -/
theorem claim_C9_fs_unchanged (env : Env) (country d : String) (fs₀ : FS)
    (products : List Product)
    (hload : env.dataFiles (screenerPath country) = some products)
    (hfail : ∀ p ∈ products, ∀ f, productOutcome env p ≠ Outcome.success f) :
    (download_compositions_of_country env country d fs₀).fs = fs₀ := by
  obtain ⟨hok, herr⟩ := runProducts_no_success_fs env d products ⟨fs₀, []⟩ hfail
  cases hrun : runProducts env d ⟨fs₀, []⟩ products with
  | ok st' =>
    rw [download_top_ok env country d fs₀ products st' hload hrun]
    exact hok st' hrun
  | error es =>
    obtain ⟨e, st₁⟩ := es
    rw [download_top_err env country d fs₀ products e st₁ hload hrun]
    exact herr e st₁ hrun

/-- Claim C9, witness: a run over a listing whose two products fail (no
anchors; `ValueError` payload) leaves a non-trivial starting filesystem
exactly as it was. -/
theorem claim_C9_witness :
    (download_compositions_of_country envAllFail "us" "2026-10-12"
        ⟨["d0"], [("f0", ⟨["c"], []⟩)]⟩).fs = ⟨["d0"], [("f0", ⟨["c"], []⟩)]⟩ :=
  claim_C9_fs_unchanged envAllFail "us" "2026-10-12" _
    [⟨"BBB", "uB"⟩, ⟨"CCC", "uC"⟩] (by decide)
    (by
      intro p hp f hf
      simp at hp
      rcases hp with rfl | rfl
      · rw [show productOutcome envAllFail ⟨"BBB", "uB"⟩ = Outcome.noLink from
            by decide] at hf
        cases hf
      · rw [show productOutcome envAllFail ⟨"CCC", "uC"⟩ = Outcome.badPayload from
            by decide] at hf
        cases hf)

end EtfLoader
